import Mathlib

/-!
Shallow embedding of the Datagen repository (synthetic data generators:
cars, profiles, salaries, regions) and proofs about it.

Modelling conventions, applied throughout:
* Python `int` is `Int`; Python `float` arithmetic is idealised as exact
  rational arithmetic (`ℚ`).  Python `round` (banker's rounding,
  half-to-even) is `pyRound`; `int()` truncation toward zero is `pyInt`.
* The Python stdlib `random` module and the third-party `Faker` library are
  external seedable randomness sources.  They are embedded as explicit
  state machines (`RandomImpl`, `FakerImpl`): every draw consumes and
  returns a state, and `seedFn` reinitialises the state from an integer
  seed, exactly as `random.seed(seed)` / `Faker.seed(seed)` overwrite the
  ambient global state.  The ambient pre-call global states are passed as
  the `st0` / `fst0` arguments of each generator.
* Ambient wall-clock inputs (`date.today()` in the profile generator) are
  passed as explicit arguments.
* Raising `ValueError` is `Except.error` with the message text; the
  generators return the record sequence they build (conversion of that
  sequence to a pandas DataFrame / CSV text / JSON text at the end of each
  generator is third-party presentation and preserves the sequence).
* Writing a file in the save helpers is represented by the returned
  `FileWrite` value: an `Except.error` result performs no write.
-/

/-- Python `round` on an exact rational: round half to even (banker's
rounding), returning an integer. -/
def pyRound (q : ℚ) : ℤ :=
  let f := Rat.floor q
  let r := q - (f : ℚ)
  if r < 1/2 then f
  else if 1/2 < r then f + 1
  else if f % 2 = 0 then f else f + 1

/-- Python `round(x, -d)`-style rounding to a granularity `g` (e.g.
`round(x, -2)` is `pyRoundTo 100 x`, and `round(x/1000)*1000` is
`pyRoundTo 1000 x`). -/
def pyRoundTo (g : ℤ) (q : ℚ) : ℤ :=
  pyRound (q / (g : ℚ)) * g

/-- Python `round(x, d)` for positive `d` digits, on exact rationals. -/
def pyRoundDigits (d : Nat) (q : ℚ) : ℚ :=
  (pyRound (q * ((10 : ℚ) ^ d)) : ℚ) / ((10 : ℚ) ^ d)

/-- Python `int()` applied to a rational: truncation toward zero. -/
def pyInt (q : ℚ) : ℤ :=
  if 0 ≤ q then Rat.floor q else -Rat.floor (-q)

/-- Boolean test that `a` is a prefix of `l` (character lists). -/
def isPrefOf : List Char → List Char → Bool
  | [], _ => true
  | _ :: _, [] => false
  | a :: as, b :: bs => a == b && isPrefOf as bs

/-- Python's `needle in hay` substring test on character lists. -/
def containsSub (hay needle : List Char) : Bool :=
  if isPrefOf needle hay then true
  else
    match hay with
    | [] => false
    | _ :: t => containsSub t needle

/-- Boolean test that `a` is a suffix of `l` (character lists). -/
def isSuffOf (a l : List Char) : Bool :=
  isPrefOf a.reverse l.reverse

/-- Python's `filename.endswith(ext)` on strings. -/
def endsWithS (s ext : String) : Bool :=
  isSuffOf ext.data s.data

/-- Python's `s.lower()`: the lowercased character list of a string. -/
def lowerChars (s : String) : List Char :=
  s.data.map Char.toLower

/-- Zero-padded two-digit rendering of a month/day number (`%m` / `%d`). -/
def pad2 (n : Nat) : String :=
  if n < 10 then "0" ++ toString n else toString n

/-- `strftime("%Y-%m-%d")` for a (year, month, day) triple. -/
def fmtDate (d : Int × Nat × Nat) : String :=
  toString d.1 ++ "-" ++ pad2 d.2.1 ++ "-" ++ pad2 d.2.2

/-! ## The external randomness sources

`RandomImpl σ` embeds the Python stdlib `random` module with global state
`σ`; `FakerImpl φ` embeds the seeded `Faker` generator with state `φ`.
Each field corresponds to one API call the repository makes.  The contract
(spec: "same seed + same call sequence ⇒ same output sequence") is
captured by these being pure functions of the state. -/

structure RandomImpl (σ : Type) where
  seedFn : Int → σ
  randint : Int → Int → σ → Int × σ
  uniform : ℚ → ℚ → σ → ℚ × σ
  choiceIdx : Nat → σ → Nat × σ
  sampleIdx : Nat → Nat → σ → List Nat × σ

structure FakerImpl (φ : Type) where
  seedFn : Int → φ
  uuid4 : φ → String × φ
  name : φ → String × φ
  bothify : String → String → φ → String × φ
  dateBetween : String → String → φ → String × φ
  dateTimeThisYear : φ → String × φ
  dateTimeBetween : String → String → φ → String × φ
  firstNameMale : φ → String × φ
  firstNameFemale : φ → String × φ
  firstName : φ → String × φ
  lastName : φ → String × φ
  freeEmailDomain : φ → String × φ
  dateOfBirth : Nat → Nat → φ → (Int × Nat × Nat) × φ
  postcode : φ → String × φ
  streetAddress : φ → String × φ
  phoneNumber : φ → String × φ

/-- `random.randint(a, b)` returns a value in `[a, b]` (inclusive). -/
def RandomImpl.RandintWF {σ : Type} (R : RandomImpl σ) : Prop :=
  ∀ a b s, a ≤ b → a ≤ (R.randint a b s).1 ∧ (R.randint a b s).1 ≤ b

/-- `random.uniform(a, b)` returns a value in `[a, b]`. -/
def RandomImpl.UniformWF {σ : Type} (R : RandomImpl σ) : Prop :=
  ∀ a b s, a ≤ b → a ≤ (R.uniform a b s).1 ∧ (R.uniform a b s).1 ≤ b

/-- `random.choice` over a sequence of length `n > 0` picks a valid index. -/
def RandomImpl.ChoiceWF {σ : Type} (R : RandomImpl σ) : Prop :=
  ∀ n s, 0 < n → (R.choiceIdx n s).1 < n

/-- `random.sample(population, k)` returns exactly `k` elements. -/
def RandomImpl.SampleLenWF {σ : Type} (R : RandomImpl σ) : Prop :=
  ∀ p k s, ((R.sampleIdx p k s).1.length = k)

/-- The `for _ in range(k)` record-building loop shared by the car,
profile and salary generators: run `step` `k` times, threading the
`random` state and the `Faker` state. -/
def genLoop {σ φ α : Type} (step : σ → φ → α × σ × φ) : Nat → σ → φ → List α
  | 0, _, _ => []
  | k + 1, st, fst =>
    let r := step st fst
    r.1 :: genLoop step k r.2.1 r.2.2

/-- The `for region_name in region_names` loop of the region generator. -/
def nameLoop {σ φ α : Type} (step : String → σ → φ → α × σ × φ) :
    List String → σ → φ → List α
  | [], _, _ => []
  | x :: xs, st, fst =>
    let r := step x st fst
    r.1 :: nameLoop step xs r.2.1 r.2.2

/-- The `valid_formats` list shared by all four generators. -/
def valid_formats : List String := ["dataframe", "dict", "csv", "json"]

/-! ## salary.py -/

/-- `JOB_TITLES`: job titles by department (salary.py lines 8-52). -/
def JOB_TITLES : List (String × List String) :=
  [("Engineering",
    ["Software Engineer", "Senior Software Engineer", "Staff Software Engineer",
     "Principal Engineer", "Engineering Manager", "Senior Engineering Manager",
     "Director of Engineering", "VP of Engineering", "CTO",
     "DevOps Engineer", "Site Reliability Engineer", "Security Engineer",
     "Frontend Engineer", "Backend Engineer", "Full Stack Engineer",
     "Mobile Engineer", "QA Engineer", "Data Engineer"]),
   ("Product",
    ["Product Manager", "Senior Product Manager", "Principal Product Manager",
     "Director of Product", "VP of Product", "Chief Product Officer",
     "Product Designer", "UX Researcher", "Product Analyst"]),
   ("Data",
    ["Data Analyst", "Senior Data Analyst", "Data Scientist",
     "Senior Data Scientist", "Staff Data Scientist", "ML Engineer",
     "Data Engineering Manager", "Director of Data Science",
     "VP of Data", "Chief Data Officer"]),
   ("Marketing",
    ["Marketing Manager", "Senior Marketing Manager", "Director of Marketing",
     "VP of Marketing", "CMO", "Content Marketing Manager",
     "Growth Marketing Manager", "Brand Manager", "Marketing Analyst"]),
   ("Sales",
    ["Sales Representative", "Account Executive", "Senior Account Executive",
     "Sales Manager", "Senior Sales Manager", "Director of Sales",
     "VP of Sales", "Chief Revenue Officer", "Business Development Manager"]),
   ("Operations",
    ["Operations Manager", "Senior Operations Manager", "Director of Operations",
     "VP of Operations", "COO", "Program Manager", "Project Manager"]),
   ("Finance",
    ["Financial Analyst", "Senior Financial Analyst", "Finance Manager",
     "Senior Finance Manager", "Director of Finance", "VP of Finance",
     "CFO", "Controller", "Accountant"]),
   ("HR",
    ["HR Manager", "Senior HR Manager", "Director of HR", "VP of HR",
     "Chief People Officer", "Recruiter", "Senior Recruiter",
     "Talent Acquisition Manager", "HR Business Partner"])]

/-- `LEVEL_RANGES`: level ↦ ((base min, base max), (bonus pct min, max))
(salary.py lines 55-66). -/
def LEVEL_RANGES : List (String × ((Int × Int) × (Int × Int))) :=
  [("Junior", ((50000, 70000), (0, 10))),
   ("Mid", ((70000, 100000), (5, 15))),
   ("Senior", ((100000, 150000), (10, 20))),
   ("Lead", ((130000, 180000), (15, 25))),
   ("Principal", ((160000, 220000), (20, 30))),
   ("Manager", ((120000, 170000), (15, 25))),
   ("Senior Manager", ((150000, 200000), (20, 30))),
   ("Director", ((180000, 250000), (25, 35))),
   ("VP", ((220000, 350000), (30, 50))),
   ("C-Level", ((300000, 500000), (40, 80)))]

/-- The `exp_ranges` table of years-of-experience ranges per level
(salary.py lines 146-157). -/
def exp_ranges : List (String × (Int × Int)) :=
  [("Junior", (0, 3)),
   ("Mid", (2, 6)),
   ("Senior", (5, 10)),
   ("Lead", (7, 12)),
   ("Principal", (10, 20)),
   ("Manager", (5, 10)),
   ("Senior Manager", (8, 15)),
   ("Director", (10, 20)),
   ("VP", (15, 25)),
   ("C-Level", (20, 35))]

/-- `determine_level` (salary.py lines 69-91): priority-ordered substring
matching on the lowercased job title. -/
def determine_level (job_title : String) : String :=
  let t := lowerChars job_title
  if ["cto", "cfo", "coo", "cmo", "cpo", "cdo", "cro", "chief"].any
      (fun x => containsSub t x.data) then "C-Level"
  else if containsSub t "vp".data || containsSub t "vice president".data then "VP"
  else if containsSub t "director".data then "Director"
  else if containsSub t "senior manager".data then "Senior Manager"
  else if containsSub t "manager".data then "Manager"
  else if containsSub t "principal".data then "Principal"
  else if containsSub t "lead".data || containsSub t "staff".data then "Lead"
  else if containsSub t "senior".data || containsSub t "sr".data then "Senior"
  else if containsSub t "junior".data || containsSub t "jr".data then "Junior"
  else "Mid"

/-- The spec's description of the level classifier as an ordered list of
(keyword set, level) rules, first match wins, default "Mid". -/
def level_rules : List (List String × String) :=
  [(["cto", "cfo", "coo", "cmo", "cpo", "cdo", "cro", "chief"], "C-Level"),
   (["vp", "vice president"], "VP"),
   (["director"], "Director"),
   (["senior manager"], "Senior Manager"),
   (["manager"], "Manager"),
   (["principal"], "Principal"),
   (["lead", "staff"], "Lead"),
   (["senior", "sr"], "Senior"),
   (["junior", "jr"], "Junior")]

/-- First-match-wins evaluation of an ordered rule list. -/
def matchRules : List (List String × String) → List Char → String
  | [], _ => "Mid"
  | (ks, lv) :: rest, t =>
    if ks.any (fun k => containsSub t k.data) then lv else matchRules rest t

/-- The level classifier as the spec words it: priority-ordered keyword
matching over the lowercased title, checking the `level_rules` in order,
returning "Mid" when nothing matches. -/
def level_spec (title : String) : String :=
  matchRules level_rules (lowerChars title)

theorem determine_level_eq_spec (s : String) : determine_level s = level_spec s := by
  simp only [determine_level, level_spec, level_rules, matchRules,
    List.any_cons, List.any_nil, Bool.or_false]

theorem determine_level_mem (s : String) :
    determine_level s ∈ LEVEL_RANGES.map Prod.fst := by
  simp only [determine_level]
  repeat' split
  all_goals decide

/-- One generated salary record (salary.py lines 162-175). -/
structure SalaryRecord where
  salary_id : String
  employee_id : String
  job_title : String
  department : String
  level : String
  years_experience : Int
  base_salary : Int
  bonus : Int
  bonus_percentage : ℚ
  total_compensation : Int
  currency : String
  effective_date : String
deriving Repr, DecidableEq, Inhabited

/-- One iteration of the salary generation loop (salary.py lines 118-177):
department and title choice, level classification, base / bonus / total
arithmetic, experience draw, and the Faker fields of the record. -/
def mkSalary {σ φ : Type} (R : RandomImpl σ) (F : FakerImpl φ) (currency : String)
    (st : σ) (fst : φ) : SalaryRecord × σ × φ :=
  let c1 := R.choiceIdx JOB_TITLES.length st
  let dept := JOB_TITLES.getD c1.1 ("", [])
  let c2 := R.choiceIdx dept.2.length c1.2
  let job_title := dept.2.getD c2.1 ""
  let level := determine_level job_title
  let ranges := (LEVEL_RANGES.lookup level).getD ((0, 0), (0, 0))
  let d1 := R.randint ranges.1.1 ranges.1.2 c2.2
  let base_salary := pyRoundTo 1000 (d1.1 : ℚ)
  let u1 := R.uniform (ranges.2.1 : ℚ) (ranges.2.2 : ℚ) d1.2
  let bonus := pyRoundTo 100 ((pyInt ((base_salary : ℚ) * (u1.1 / 100))) : ℚ)
  let total_comp := base_salary + bonus
  let eranges := (exp_ranges.lookup level).getD (0, 0)
  let d2 := R.randint eranges.1 eranges.2 u1.2
  let f1 := F.uuid4 fst
  let f2 := F.uuid4 f1.2
  let f3 := F.dateBetween "-2y" "today" f2.2
  (⟨f1.1, f2.1, job_title, dept.1, level, d2.1, base_salary, bonus,
    pyRoundDigits 2 u1.1, total_comp, currency, f3.1⟩, d2.2, f3.2)

/-- `generate_salaries` (salary.py lines 94-190).  The `locale` argument is
accepted but, as in the source (`fake = Faker()` ignores it), unused. -/
def generate_salaries {σ φ : Type} (R : RandomImpl σ) (F : FakerImpl φ)
    (n : Int) (seed : Option Int) (locale : String) (currency : String)
    (output_format : String) (st0 : σ) (fst0 : φ) :
    Except String (List SalaryRecord) :=
  if n < 1 then .error "Number of salary records (n) must be atleast 1"
  else if !(valid_formats.contains output_format) then
    .error "output_format must be one of [dataframe, dict, csv, json]"
  else
    let st := match seed with | some v => R.seedFn v | none => st0
    let fst := match seed with | some v => F.seedFn v | none => fst0
    .ok (genLoop (mkSalary R F currency) n.toNat st fst)

/-! ## car.py -/

/-- Per-make entry of `CAR_DATA`: models list and country of origin. -/
structure CarInfo where
  models : List String
  origins : String
deriving Repr, DecidableEq, Inhabited

/-- `CAR_DATA` (car.py lines 7-48). -/
def CAR_DATA : List (String × CarInfo) :=
  [("Toyota", ⟨["Corolla", "Camry", "RAV4", "Highlander", "Prius", "Land Cruiser"], "Japan"⟩),
   ("Honda", ⟨["Civic", "Accord", "CR-V", "Pilot", "Fit", "Odyssey"], "Japan"⟩),
   ("Ford", ⟨["Fiesta", "Focus", "Fusion", "Escape", "Explorer", "Mustang", "F-150"], "USA"⟩),
   ("Chevrolet", ⟨["Spark", "Malibu", "Equinox", "Traverse", "Tahoe", "Silverado"], "USA"⟩),
   ("BMW", ⟨["3 Series", "5 Series", "7 Series", "X1", "X3", "X5", "X7"], "Germany"⟩),
   ("Mercedes-Benz", ⟨["A-Class", "C-Class", "E-Class", "S-Class", "GLA", "GLC", "GLE"], "Germany"⟩),
   ("Audi", ⟨["A3", "A4", "A6", "A8", "Q3", "Q5", "Q7"], "Germany"⟩),
   ("Tesla", ⟨["Model 3", "Model Y", "Model S", "Model X"], "USA"⟩),
   ("Hyundai", ⟨["Elantra", "Sonata", "Tucson", "Santa Fe", "Kona"], "South Korea"⟩),
   ("Kia", ⟨["Rio", "Forte", "Sportage", "Sorento", "Telluride"], "South Korea"⟩)]

def TRANSMISSIONS : List String := ["Manual", "Automatic", "CVT", "Dual-Clutch"]

def COLORS : List String :=
  ["White", "Black", "Silver", "Gray", "Blue", "Red", "Green", "Yellow", "Orange", "Brown"]

/-- The `base_ranges` price-tier table (car.py lines 85-90). -/
def base_ranges : List (String × (Int × Int)) :=
  [("Economy", (15000, 35000)),
   ("Midrange", (30000, 60000)),
   ("Luxury", (60000, 150000)),
   ("EV", (40000, 130000))]

/-- The make → price range dispatch (car.py lines 92-99). -/
def tierRange (make : String) : Int × Int :=
  if make ∈ ["Toyota", "Honda", "Hyundai", "Kia", "Ford", "Chevrolet"] then
    (base_ranges.lookup "Economy").getD (0, 0)
  else if make ∈ ["BMW", "Mercedes-Benz", "Audi"] then
    (base_ranges.lookup "Luxury").getD (0, 0)
  else if make = "Tesla" then
    (base_ranges.lookup "EV").getD (0, 0)
  else
    (base_ranges.lookup "Midrange").getD (0, 0)

/-- The price adjustment and rounding applied to the drawn base price
(car.py lines 101-108): +10% when the year is after 2020, ×0.9 for manual
transmission, then `round(price, -2)`. -/
def carPrice (base : Int) (year : Int) (transmission : String) : Int :=
  let p : ℚ := (base : ℚ)
  let p1 := if year > 2020 then p * (11 / 10 : ℚ) else p
  let p2 := if ["Manual"].contains transmission then p1 * (9 / 10 : ℚ) else p1
  pyRoundTo 100 p2

/-- One generated car record (car.py lines 110-122). -/
structure CarRecord where
  car_id : String
  make : String
  model : String
  year : Int
  color : String
  transmission : String
  origin_country : String
  currency : String
  price : Int
  vin : String
  created_at : String
deriving Repr, DecidableEq, Inhabited

/-- One iteration of the car generation loop (car.py lines 74-124). -/
def mkCar {σ φ : Type} (R : RandomImpl σ) (F : FakerImpl φ) (currency : String)
    (st : σ) (fst : φ) : CarRecord × σ × φ :=
  let c1 := R.choiceIdx CAR_DATA.length st
  let entry := CAR_DATA.getD c1.1 ("", default)
  let make := entry.1
  let c2 := R.choiceIdx entry.2.models.length c1.2
  let model := entry.2.models.getD c2.1 ""
  let origin := entry.2.origins
  let y := R.randint 2005 2025 c2.2
  let c3 := R.choiceIdx COLORS.length y.2
  let color := COLORS.getD c3.1 ""
  let c4 := R.choiceIdx TRANSMISSIONS.length c3.2
  let transmission := TRANSMISSIONS.getD c4.1 ""
  let pr := tierRange make
  let d1 := R.randint pr.1 pr.2 c4.2
  let price := carPrice d1.1 y.1 transmission
  let f1 := F.uuid4 fst
  let f2 := F.bothify "?#??#####?#??????" "ABCDEFGHIJKLMNOPQRSTUVWXYZ" f1.2
  let f3 := F.dateTimeThisYear f2.2
  (⟨f1.1, make, model, y.1, color, transmission, origin, currency, price,
    f2.1, f3.1⟩, d1.2, f3.2)

/-- `generate_cars` (car.py lines 53-136). -/
def generate_cars {σ φ : Type} (R : RandomImpl σ) (F : FakerImpl φ)
    (n : Int) (seed : Option Int) (currency : String) (output_format : String)
    (st0 : σ) (fst0 : φ) : Except String (List CarRecord) :=
  if n < 1 then .error "Number of cars (n) must be at least 1"
  else if !(valid_formats.contains output_format) then
    .error "output_format must be one of [dataframe, dict, csv, json]"
  else
    let st := match seed with | some v => R.seedFn v | none => st0
    let fst := match seed with | some v => F.seedFn v | none => fst0
    .ok (genLoop (mkCar R F currency) n.toNat st fst)

/-! ## The save helpers (car.py lines 139-173, region.py lines 140-177) -/

/-- The single file write a successful save performs: destination,
resolved format, and number of rows written. -/
structure FileWrite where
  filename : String
  format : String
  rows : Nat
deriving Repr, DecidableEq

/-- Format resolution of the save helpers: an explicit `file_format`
argument wins; otherwise the format is inferred from the filename
extension, defaulting to csv (car.py lines 150-160, region.py 152-163). -/
def resolve_format (filename : String) (file_format : Option String) : String :=
  match file_format with
  | some f => f
  | none =>
    if endsWithS filename ".csv" then "csv"
    else if endsWithS filename ".json" then "json"
    else if endsWithS filename ".xlsx" || endsWithS filename ".xls" then "excel"
    else if endsWithS filename ".parquet" then "parquet"
    else "csv"

/-- `save_cars` (car.py lines 139-173): resolve the format, then perform
exactly one write, or raise without writing anything. -/
def save_cars (cars : List CarRecord) (filename : String)
    (file_format : Option String) : Except String FileWrite :=
  let fmt := resolve_format filename file_format
  if fmt = "csv" then .ok ⟨filename, "csv", cars.length⟩
  else if fmt = "json" then .ok ⟨filename, "json", cars.length⟩
  else if fmt = "excel" then .ok ⟨filename, "excel", cars.length⟩
  else if fmt = "parquet" then .ok ⟨filename, "parquet", cars.length⟩
  else .error ("Unsupported file format: " ++ fmt)

/-! ## profile.py -/

/-- One generated profile record (profile.py lines 87-106). -/
structure ProfileRecord where
  profile_id : String
  first_name : String
  last_name : String
  full_name : String
  email : String
  username : String
  gender : String
  date_of_birth : String
  age : Int
  phone : String
  street_address : String
  city : String
  state : String
  postal_code : String
  country : String
  latitude : ℚ
  longitude : ℚ
  created_at : String
deriving Repr, DecidableEq, Inhabited

/-- The `kenyan_cities` list (profile.py lines 43-46). -/
def kenyan_cities : List String :=
  ["Nairobi", "Mombasa", "Kisumu", "Nakuru", "Eldoret",
   "Thika", "Machakos", "Nyeri", "Garissa", "Naivasha"]

/-- The `genders` list (profile.py line 49). -/
def genders : List String := ["Male", "Female", "Non-binary"]

/-- One iteration of the profile generation loop (profile.py lines
51-108).  `today` is the ambient `date.today()` as (year, month, day);
the age rule subtracts one when (month, day) of today is
lexicographically before the birth (month, day), as the tuple comparison
in the source does. -/
def mkProfile {σ φ : Type} (R : RandomImpl σ) (F : FakerImpl φ)
    (today : Int × Nat × Nat) (st : σ) (fst : φ) : ProfileRecord × σ × φ :=
  let g := R.choiceIdx genders.length st
  let gender := genders.getD g.1 ""
  let fn :=
    if gender = "Male" then F.firstNameMale fst
    else if gender = "Female" then F.firstNameFemale fst
    else F.firstName fst
  let ln := F.lastName fn.2
  let full_name := fn.1 ++ " " ++ ln.1
  let un := R.randint 1 999 g.2
  let username := fn.1.toLower ++ "." ++ ln.1.toLower ++ toString un.1
  let dm := F.freeEmailDomain ln.2
  let email := username ++ "@" ++ dm.1
  let dob := F.dateOfBirth 18 80 dm.2
  let age := today.1 - dob.1.1 -
    (if today.2.1 < dob.1.2.1 ∨ (today.2.1 = dob.1.2.1 ∧ today.2.2 < dob.1.2.2)
     then 1 else 0)
  let ci := R.choiceIdx kenyan_cities.length un.2
  let city := kenyan_cities.getD ci.1 ""
  let pc := F.postcode dob.2
  let sa := F.streetAddress pc.2
  let la := R.uniform (-47 / 10 : ℚ) (5 : ℚ) ci.2
  let latitude := pyRoundDigits 6 la.1
  let lo := R.uniform (34 : ℚ) (419 / 10 : ℚ) la.2
  let longitude := pyRoundDigits 6 lo.1
  let pid := F.uuid4 sa.2
  let ph := F.phoneNumber pid.2
  let ca := F.dateTimeBetween "-2y" "now" ph.2
  (⟨pid.1, fn.1, ln.1, full_name, email, username, gender, fmtDate dob.1, age,
    ph.1, sa.1, city, "Kenya", pc.1, "Kenya", latitude, longitude, ca.1⟩,
   lo.2, ca.2)

/-- `generate_profiles` (profile.py lines 7-121).  The `locale` argument
selects the Faker pools; the pools themselves live inside `F`. -/
def generate_profiles {σ φ : Type} (R : RandomImpl σ) (F : FakerImpl φ)
    (n : Int) (seed : Option Int) (locale : String) (output_format : String)
    (today : Int × Nat × Nat) (st0 : σ) (fst0 : φ) :
    Except String (List ProfileRecord) :=
  if n < 1 then .error "Number of profiles (n) must be at least 1."
  else if !(valid_formats.contains output_format) then
    .error "output_format must be one of [dataframe, dict, csv, json]"
  else
    let st := match seed with | some v => R.seedFn v | none => st0
    let fst := match seed with | some v => F.seedFn v | none => fst0
    .ok (genLoop (mkProfile R F today) n.toNat st fst)

/-! ## region.py -/

/-- Per-region entry of `REGIONS`. -/
structure RegionInfo where
  code : String
  countries : List String
  timezones : List String
  hq_cities : List String
deriving Repr, DecidableEq, Inhabited

/-- `REGIONS` (region.py lines 7-52), in the fixed source order. -/
def REGIONS : List (String × RegionInfo) :=
  [("North America",
    ⟨"NA",
     ["United States", "Canada", "Mexico"],
     ["America/New_York", "America/Chicago", "America/Denver",
      "America/Los_Angeles", "America/Toronto", "America/Mexico_City"],
     ["New York", "Toronto", "San Francisco", "Chicago", "Mexico City"]⟩),
   ("South America",
    ⟨"SA",
     ["Brazil", "Argentina", "Chile", "Colombia", "Peru"],
     ["America/Sao_Paulo", "America/Argentina/Buenos_Aires",
      "America/Santiago", "America/Bogota", "America/Lima"],
     ["São Paulo", "Buenos Aires", "Santiago", "Bogotá", "Lima"]⟩),
   ("Europe",
    ⟨"EU",
     ["United Kingdom", "Germany", "France", "Spain", "Italy",
      "Netherlands", "Poland", "Sweden", "Switzerland"],
     ["Europe/London", "Europe/Berlin", "Europe/Paris",
      "Europe/Madrid", "Europe/Rome", "Europe/Amsterdam"],
     ["London", "Berlin", "Paris", "Madrid", "Amsterdam", "Stockholm"]⟩),
   ("Middle East",
    ⟨"ME",
     ["United Arab Emirates", "Saudi Arabia", "Israel", "Turkey", "Egypt"],
     ["Asia/Dubai", "Asia/Riyadh", "Asia/Jerusalem",
      "Europe/Istanbul", "Africa/Cairo"],
     ["Dubai", "Riyadh", "Tel Aviv", "Istanbul", "Cairo"]⟩),
   ("Africa",
    ⟨"AF",
     ["South Africa", "Nigeria", "Kenya", "Egypt", "Morocco"],
     ["Africa/Johannesburg", "Africa/Lagos", "Africa/Nairobi",
      "Africa/Cairo", "Africa/Casablanca"],
     ["Johannesburg", "Lagos", "Nairobi", "Cairo", "Casablanca"]⟩),
   ("Asia Pacific",
    ⟨"APAC",
     ["China", "Japan", "India", "Australia", "Singapore",
      "South Korea", "Indonesia", "Thailand", "Vietnam"],
     ["Asia/Shanghai", "Asia/Tokyo", "Asia/Kolkata",
      "Australia/Sydney", "Asia/Singapore", "Asia/Seoul"],
     ["Shanghai", "Tokyo", "Mumbai", "Sydney", "Singapore", "Seoul"]⟩)]

/-- The `city_to_country` mapping (region.py lines 88-101). -/
def city_to_country : List (String × String) :=
  [("New York", "United States"), ("Toronto", "Canada"),
   ("San Francisco", "United States"), ("Chicago", "United States"),
   ("Mexico City", "Mexico"),
   ("São Paulo", "Brazil"), ("Buenos Aires", "Argentina"),
   ("Santiago", "Chile"), ("Bogotá", "Colombia"), ("Lima", "Peru"),
   ("London", "United Kingdom"), ("Berlin", "Germany"), ("Paris", "France"),
   ("Madrid", "Spain"), ("Amsterdam", "Netherlands"), ("Stockholm", "Sweden"),
   ("Dubai", "United Arab Emirates"), ("Riyadh", "Saudi Arabia"),
   ("Tel Aviv", "Israel"), ("Istanbul", "Turkey"), ("Cairo", "Egypt"),
   ("Johannesburg", "South Africa"), ("Lagos", "Nigeria"), ("Nairobi", "Kenya"),
   ("Casablanca", "Morocco"),
   ("Shanghai", "China"), ("Tokyo", "Japan"), ("Mumbai", "India"),
   ("Sydney", "Australia"), ("Singapore", "Singapore"), ("Seoul", "South Korea")]

/-- One generated region record (region.py lines 109-122). -/
structure RegionRecord where
  region_id : String
  region_name : String
  region_code : String
  countries : String
  country_count : Int
  primary_timezone : String
  all_timezones : String
  hq_city : String
  hq_country : String
  regional_manager : String
  manager_email : String
  established_date : String
deriving Repr, DecidableEq, Inhabited

/-- One iteration of the region loop (region.py lines 81-124): choose the
headquarters city, resolve its country with fallback to the region's
first country, and build the record. -/
def mkRegion {σ φ : Type} (R : RandomImpl σ) (F : FakerImpl φ)
    (region_name : String) (st : σ) (fst : φ) : RegionRecord × σ × φ :=
  let info := (REGIONS.lookup region_name).getD default
  let hc := R.choiceIdx info.hq_cities.length st
  let hq_city := info.hq_cities.getD hc.1 ""
  let hq_country := (city_to_country.lookup hq_city).getD (info.countries.getD 0 "")
  let mn := F.name fst
  let manager_email := (mn.1.toLower.replace " " ".") ++ "@company.com"
  let rid := F.uuid4 mn.2
  let est := F.dateBetween "-10y" "-1y" rid.2
  (⟨rid.1, region_name, info.code, String.intercalate ", " info.countries,
    (info.countries.length : Int), info.timezones.getD 0 "",
    String.intercalate ", " info.timezones, hq_city, hq_country, mn.1,
    manager_email, est.1⟩, hc.2, est.2)

/-- `generate_regions` (region.py lines 54-137).  When `include_all` is
false the requested count defaults to 3 and is capped at the region
count; a negative count is the stdlib `random.sample` ValueError
("Sample larger than population or is negative"). -/
def generate_regions {σ φ : Type} (R : RandomImpl σ) (F : FakerImpl φ)
    (n : Option Int) (seed : Option Int) (include_all : Bool)
    (output_format : String) (st0 : σ) (fst0 : φ) :
    Except String (List RegionRecord) :=
  if !(valid_formats.contains output_format) then
    .error "output_format must be one of [dataframe, dict, csv, json]"
  else
    let st := match seed with | some v => R.seedFn v | none => st0
    let fst := match seed with | some v => F.seedFn v | none => fst0
    if include_all then
      .ok (nameLoop (mkRegion R F) (REGIONS.map Prod.fst) st fst)
    else
      if min (n.getD 3) (REGIONS.length : Int) < 0 then
        .error "Sample larger than population or is negative"
      else
        let sp := R.sampleIdx REGIONS.length (min (n.getD 3) (REGIONS.length : Int)).toNat st
        .ok (nameLoop (mkRegion R F)
          (sp.1.map (fun i => (REGIONS.getD i ("", default)).1)) sp.2 fst)

/-- `save_regions` (region.py lines 140-177): identical logic to
`save_cars` over region records. -/
def save_regions (regions : List RegionRecord) (filename : String)
    (file_format : Option String) : Except String FileWrite :=
  let fmt := resolve_format filename file_format
  if fmt = "csv" then .ok ⟨filename, "csv", regions.length⟩
  else if fmt = "json" then .ok ⟨filename, "json", regions.length⟩
  else if fmt = "excel" then .ok ⟨filename, "excel", regions.length⟩
  else if fmt = "parquet" then .ok ⟨filename, "parquet", regions.length⟩
  else .error ("Unsupported file format: " ++ fmt)

/-! ## Concrete executable instances of the randomness sources

Tiny pure PRNGs used to evaluate the generators on concrete inputs.  Any
implementation satisfying the WF contracts would do; these are chosen for
fast kernel evaluation. -/

/-- A small linear congruential step on `Nat`. -/
def lcg (s : Nat) : Nat := (s * 75 + 74) % 65537

/-- A concrete `random`-module implementation with state `Nat`. -/
def natRandom : RandomImpl Nat where
  seedFn i := i.toNat % 65537
  randint a b s := (if a ≤ b then a + (s : Int) % (b - a + 1) else a, lcg s)
  uniform a b s := (a, lcg s)
  choiceIdx n s := (s % n, lcg s)
  sampleIdx p k s := ((List.range k).map (fun i => (s + i) % p), lcg s)

/-- A concrete `Faker` implementation with state `Nat`. -/
def natFaker : FakerImpl Nat where
  seedFn i := i.toNat % 65537
  uuid4 s := ("id-" ++ toString s, lcg s)
  name s := ("Jane " ++ toString s, lcg s)
  bothify _ _ s := ("VIN" ++ toString s, lcg s)
  dateBetween _ _ s := ("2024-01-" ++ pad2 (s % 28 + 1), lcg s)
  dateTimeThisYear s := ("2025-01-01 00:00:" ++ pad2 (s % 60), lcg s)
  dateTimeBetween _ _ s := ("2024-06-01 12:00:" ++ pad2 (s % 60), lcg s)
  firstNameMale s := ("John" ++ toString s, lcg s)
  firstNameFemale s := ("Mary" ++ toString s, lcg s)
  firstName s := ("Alex" ++ toString s, lcg s)
  lastName s := ("Doe" ++ toString s, lcg s)
  freeEmailDomain s := ("mail" ++ toString s ++ ".com", lcg s)
  dateOfBirth _ _ s := ((1990, s % 12 + 1, s % 28 + 1), lcg s)
  postcode s := (toString (10000 + s % 90000), lcg s)
  streetAddress s := (toString s ++ " Main St", lcg s)
  phoneNumber s := ("+254-" ++ toString s, lcg s)

theorem natRandom_RandintWF : natRandom.RandintWF := by
  intro a b s hab
  simp only [natRandom, RandomImpl.RandintWF]
  rw [if_pos hab]
  have h1 : 0 ≤ (s : Int) % (b - a + 1) := Int.emod_nonneg _ (by omega)
  have h2 : (s : Int) % (b - a + 1) < b - a + 1 := Int.emod_lt_of_pos _ (by omega)
  omega

theorem natRandom_UniformWF : natRandom.UniformWF := by
  intro a b s hab
  exact ⟨le_refl a, hab⟩

theorem natRandom_SampleLenWF : natRandom.SampleLenWF := by
  intro p k s
  simp [natRandom]

/-! ## Loop lemmas -/

theorem genLoop_length {σ φ α : Type} (step : σ → φ → α × σ × φ) :
    ∀ (k : Nat) (st : σ) (fst : φ), (genLoop step k st fst).length = k := by
  intro k
  induction k with
  | zero => intro st fst; rfl
  | succ m ih => intro st fst; simp [genLoop, ih]

theorem genLoop_mem {σ φ α : Type} (step : σ → φ → α × σ × φ)
    (P : α → Prop) (hstep : ∀ st fst, P (step st fst).1) :
    ∀ (k : Nat) (st : σ) (fst : φ) (r : α), r ∈ genLoop step k st fst → P r := by
  intro k
  induction k with
  | zero => intro st fst r hr; cases hr
  | succ m ih =>
    intro st fst r hr
    rcases List.mem_cons.mp hr with h | h
    · subst h; exact hstep st fst
    · exact ih _ _ _ h

theorem nameLoop_length {σ φ α : Type} (step : String → σ → φ → α × σ × φ) :
    ∀ (names : List String) (st : σ) (fst : φ),
      (nameLoop step names st fst).length = names.length := by
  intro names
  induction names with
  | nil => intro st fst; rfl
  | cons x xs ih => intro st fst; simp [nameLoop, ih]

theorem nameLoop_map {σ φ α : Type} (step : String → σ → φ → α × σ × φ)
    (f : α → String) (hf : ∀ x st fst, f (step x st fst).1 = x) :
    ∀ (names : List String) (st : σ) (fst : φ),
      (nameLoop step names st fst).map f = names := by
  intro names
  induction names with
  | nil => intro st fst; rfl
  | cons x xs ih => intro st fst; simp [nameLoop, hf, ih]

/-! ## Range and table lemmas -/

theorem tierRange_le (m : String) : (tierRange m).1 ≤ (tierRange m).2 := by
  unfold tierRange
  repeat' split
  all_goals decide

theorem level_range_le (lv : String) :
    ((LEVEL_RANGES.lookup lv).getD ((0, 0), (0, 0))).1.1 ≤
      ((LEVEL_RANGES.lookup lv).getD ((0, 0), (0, 0))).1.2 ∧
    ((LEVEL_RANGES.lookup lv).getD ((0, 0), (0, 0))).2.1 ≤
      ((LEVEL_RANGES.lookup lv).getD ((0, 0), (0, 0))).2.2 := by
  unfold LEVEL_RANGES
  simp only [List.lookup]
  repeat' split
  all_goals decide

theorem levelKeys_lookup :
    ∀ lv ∈ LEVEL_RANGES.map Prod.fst,
      (LEVEL_RANGES.lookup lv).isSome = true ∧ (exp_ranges.lookup lv).isSome = true := by
  decide

/-! ## Per-record lemmas -/

theorem mkCar_price {σ φ : Type} (R : RandomImpl σ) (F : FakerImpl φ)
    (c : String) (hR : R.RandintWF) (st : σ) (fst : φ) :
    ∃ base, (tierRange (mkCar R F c st fst).1.make).1 ≤ base ∧
      base ≤ (tierRange (mkCar R F c st fst).1.make).2 ∧
      (mkCar R F c st fst).1.price =
        carPrice base (mkCar R F c st fst).1.year (mkCar R F c st fst).1.transmission := by
  simp only [mkCar]
  refine ⟨_, ?_, ?_, rfl⟩
  · exact (hR _ _ _ (tierRange_le _)).1
  · exact (hR _ _ _ (tierRange_le _)).2

theorem mkSalary_spec {σ φ : Type} (R : RandomImpl σ) (F : FakerImpl φ)
    (cur : String) (hR : R.RandintWF) (hU : R.UniformWF) (st : σ) (fst : φ) :
    ∃ draw pct,
      ((LEVEL_RANGES.lookup (mkSalary R F cur st fst).1.level).getD ((0, 0), (0, 0))).1.1 ≤ draw ∧
      draw ≤ ((LEVEL_RANGES.lookup (mkSalary R F cur st fst).1.level).getD ((0, 0), (0, 0))).1.2 ∧
      (mkSalary R F cur st fst).1.base_salary = pyRoundTo 1000 (draw : ℚ) ∧
      (((LEVEL_RANGES.lookup (mkSalary R F cur st fst).1.level).getD ((0, 0), (0, 0))).2.1 : ℚ) ≤ pct ∧
      pct ≤ (((LEVEL_RANGES.lookup (mkSalary R F cur st fst).1.level).getD ((0, 0), (0, 0))).2.2 : ℚ) ∧
      (mkSalary R F cur st fst).1.bonus =
        pyRoundTo 100 ((pyInt (((mkSalary R F cur st fst).1.base_salary : ℚ) * (pct / 100))) : ℚ) ∧
      (mkSalary R F cur st fst).1.total_compensation =
        (mkSalary R F cur st fst).1.base_salary + (mkSalary R F cur st fst).1.bonus := by
  simp only [mkSalary]
  refine ⟨_, _, ?_, ?_, rfl, ?_, ?_, rfl, trivial⟩
  · exact (hR _ _ _ (level_range_le _).1).1
  · exact (hR _ _ _ (level_range_le _).1).2
  · exact (hU _ _ _ (by exact_mod_cast (level_range_le _).2)).1
  · exact (hU _ _ _ (by exact_mod_cast (level_range_le _).2)).2

theorem mkRegion_name {σ φ : Type} (R : RandomImpl σ) (F : FakerImpl φ)
    (x : String) (st : σ) (fst : φ) : (mkRegion R F x st fst).1.region_name = x := rfl

/-! ## Suffix exclusivity (for format inference) -/

theorem isPrefOf_of_le : ∀ (l a b : List Char), isPrefOf a l = true →
    isPrefOf b l = true → a.length ≤ b.length → isPrefOf a b = true := by
  intro l
  induction l with
  | nil =>
    intro a b ha hb hab
    cases a with
    | nil => rfl
    | cons x xs => simp [isPrefOf] at ha
  | cons c t ih =>
    intro a b ha hb hab
    cases a with
    | nil => rfl
    | cons x xs =>
      cases b with
      | nil => simp at hab
      | cons y ys =>
        simp only [isPrefOf, Bool.and_eq_true, beq_iff_eq] at ha hb ⊢
        refine ⟨ha.1.trans hb.1.symm, ih _ _ ha.2 hb.2 ?_⟩
        simpa using hab

theorem isSuffOf_of_le (a b l : List Char) (ha : isSuffOf a l = true)
    (hb : isSuffOf b l = true) (hab : a.length ≤ b.length) :
    isSuffOf a b = true := by
  unfold isSuffOf at *
  exact isPrefOf_of_le l.reverse _ _ ha hb (by simpa using hab)

theorem endsWith_excl (fn e1 e2 : String) (h2 : endsWithS fn e2 = true)
    (hlen : e1.data.length ≤ e2.data.length)
    (hne : isSuffOf e1.data e2.data = false) : endsWithS fn e1 = false := by
  cases hc : endsWithS fn e1
  · rfl
  · have := isSuffOf_of_le e1.data e2.data fn.data hc h2 hlen
    rw [hne] at this
    cases this

/-! ## Claims -/

/-- C1: the salary level classifier maps a job title to a seniority level
by priority-ordered substring matching on the lowercased title, in the
order C-level keywords, VP, Director, Senior Manager, Manager, Principal,
Lead/Staff, Senior/Sr, Junior/Jr, defaulting to Mid (`level_spec` is that
ordered-rule matcher, written from the spec); in particular
`determine_level "Senior Manager, Engineering" = "Senior Manager"`,
`determine_level "CTO" = "C-Level"`, and
`determine_level "Software Engineer" = "Mid"`. -/
theorem claim_C1 :
    (∀ s, determine_level s = level_spec s) ∧
    determine_level "Senior Manager, Engineering" = "Senior Manager" ∧
    determine_level "CTO" = "C-Level" ∧
    determine_level "Software Engineer" = "Mid" :=
  ⟨determine_level_eq_spec, by decide, by decide, by decide⟩

/-- C2: every generator (cars, profiles, salaries, regions), called twice
with identical `n`, a present seed, and identical other arguments, yields
field-for-field identical record sequences.  The pre-call ambient states
of the `random` module and of `Faker` are quantified separately on the
two calls: with a seed present the output does not depend on them. -/
theorem claim_C2 :
    (∀ (σ φ : Type) (R : RandomImpl σ) (F : FakerImpl φ) (n s : Int)
       (cur fmt : String) (st1 st2 : σ) (fst1 fst2 : φ),
       generate_cars R F n (some s) cur fmt st1 fst1 =
         generate_cars R F n (some s) cur fmt st2 fst2) ∧
    (∀ (σ φ : Type) (R : RandomImpl σ) (F : FakerImpl φ) (n s : Int)
       (loc fmt : String) (today : Int × Nat × Nat) (st1 st2 : σ) (fst1 fst2 : φ),
       generate_profiles R F n (some s) loc fmt today st1 fst1 =
         generate_profiles R F n (some s) loc fmt today st2 fst2) ∧
    (∀ (σ φ : Type) (R : RandomImpl σ) (F : FakerImpl φ) (n s : Int)
       (loc cur fmt : String) (st1 st2 : σ) (fst1 fst2 : φ),
       generate_salaries R F n (some s) loc cur fmt st1 fst1 =
         generate_salaries R F n (some s) loc cur fmt st2 fst2) ∧
    (∀ (σ φ : Type) (R : RandomImpl σ) (F : FakerImpl φ) (n : Option Int)
       (s : Int) (ia : Bool) (fmt : String) (st1 st2 : σ) (fst1 fst2 : φ),
       generate_regions R F n (some s) ia fmt st1 fst1 =
         generate_regions R F n (some s) ia fmt st2 fst2) := by
  refine ⟨?_, ?_, ?_, ?_⟩
  all_goals intros; rfl

/-- C9: the level classification is total: for every job-title string the
result of `determine_level` is one of the ten keys of `LEVEL_RANGES`, and
both the `LEVEL_RANGES` lookup and the `exp_ranges` lookup performed by
`generate_salaries` on it succeed. -/
theorem claim_C9 (s : String) :
    determine_level s ∈ LEVEL_RANGES.map Prod.fst ∧
    (LEVEL_RANGES.lookup (determine_level s)).isSome = true ∧
    (exp_ranges.lookup (determine_level s)).isSome = true :=
  ⟨determine_level_mem s, levelKeys_lookup _ (determine_level_mem s)⟩

/-- C10: with `include_all = true` the region generator ignores `n`
entirely — for any two values of `n` (including `none`, zero or negative
values) the result is identical — and, for every valid output format, it
returns one record per each of the 6 predefined regions in the fixed
table order, without sampling. -/
theorem claim_C10 :
    (∀ (σ φ : Type) (R : RandomImpl σ) (F : FakerImpl φ) (n1 n2 : Option Int)
       (seed : Option Int) (fmt : String) (st : σ) (fst : φ),
       generate_regions R F n1 seed true fmt st fst =
         generate_regions R F n2 seed true fmt st fst) ∧
    (∀ (σ φ : Type) (R : RandomImpl σ) (F : FakerImpl φ) (n : Option Int)
       (seed : Option Int) (fmt : String) (st : σ) (fst : φ),
       valid_formats.contains fmt = true →
       ∃ l, generate_regions R F n seed true fmt st fst = .ok l ∧
         l.length = 6 ∧
         l.map RegionRecord.region_name =
           ["North America", "South America", "Europe", "Middle East",
            "Africa", "Asia Pacific"]) := by
  constructor
  · intros; rfl
  · intro σ φ R F n seed fmt st fst h
    have e : generate_regions R F n seed true fmt st fst =
        .ok (nameLoop (mkRegion R F) (REGIONS.map Prod.fst)
          (match seed with | some v => R.seedFn v | none => st)
          (match seed with | some v => F.seedFn v | none => fst)) := by
      unfold generate_regions
      rw [h]
      rfl
    refine ⟨_, e, ?_, ?_⟩
    · rw [nameLoop_length]
      rfl
    · rw [nameLoop_map]
      · rfl
      · intro x st' fst'
        rfl

/-- Witness for C10 at a concrete call. -/
theorem claim_C10_witness :
    valid_formats.contains "dict" = true ∧
    (∃ l, generate_regions natRandom natFaker (some 2) (some 42) true "dict" 0 0 = .ok l ∧
      l.length = 6 ∧
      l.map RegionRecord.region_name =
        ["North America", "South America", "Europe", "Middle East",
         "Africa", "Asia Pacific"]) :=
  ⟨by decide, claim_C10.2 Nat Nat natRandom natFaker (some 2) (some 42) "dict" 0 0 (by decide)⟩

/-- C4: every valid call returns exactly `n` records for the car, profile
and salary generators; the region generator returns exactly the fixed
region count (6) when `include_all` is true, and `min n 6` records when
`include_all` is false and `n` is given (and nonnegative, the only case
in which the call returns at all). -/
theorem claim_C4 :
    (∀ (σ φ : Type) (R : RandomImpl σ) (F : FakerImpl φ) (n : Int)
       (seed : Option Int) (cur fmt : String) (st : σ) (fst : φ),
       1 ≤ n → valid_formats.contains fmt = true →
       ∃ l, generate_cars R F n seed cur fmt st fst = .ok l ∧
         (l.length : Int) = n) ∧
    (∀ (σ φ : Type) (R : RandomImpl σ) (F : FakerImpl φ) (n : Int)
       (seed : Option Int) (loc fmt : String) (today : Int × Nat × Nat)
       (st : σ) (fst : φ),
       1 ≤ n → valid_formats.contains fmt = true →
       ∃ l, generate_profiles R F n seed loc fmt today st fst = .ok l ∧
         (l.length : Int) = n) ∧
    (∀ (σ φ : Type) (R : RandomImpl σ) (F : FakerImpl φ) (n : Int)
       (seed : Option Int) (loc cur fmt : String) (st : σ) (fst : φ),
       1 ≤ n → valid_formats.contains fmt = true →
       ∃ l, generate_salaries R F n seed loc cur fmt st fst = .ok l ∧
         (l.length : Int) = n) ∧
    (∀ (σ φ : Type) (R : RandomImpl σ) (F : FakerImpl φ) (n : Option Int)
       (seed : Option Int) (fmt : String) (st : σ) (fst : φ),
       valid_formats.contains fmt = true →
       ∃ l, generate_regions R F n seed true fmt st fst = .ok l ∧
         l.length = 6) ∧
    (∀ (σ φ : Type) (R : RandomImpl σ) (F : FakerImpl φ) (n : Int)
       (seed : Option Int) (fmt : String) (st : σ) (fst : φ),
       R.SampleLenWF → valid_formats.contains fmt = true → 0 ≤ n →
       ∃ l, generate_regions R F (some n) seed false fmt st fst = .ok l ∧
         (l.length : Int) = min n 6) := by
  refine ⟨?_, ?_, ?_, ?_, ?_⟩
  · intro σ φ R F n seed cur fmt st fst h1 h2
    unfold generate_cars
    rw [if_neg (by omega : ¬ n < 1), h2]
    refine ⟨_, rfl, ?_⟩
    rw [genLoop_length]
    omega
  · intro σ φ R F n seed loc fmt today st fst h1 h2
    unfold generate_profiles
    rw [if_neg (by omega : ¬ n < 1), h2]
    refine ⟨_, rfl, ?_⟩
    rw [genLoop_length]
    omega
  · intro σ φ R F n seed loc cur fmt st fst h1 h2
    unfold generate_salaries
    rw [if_neg (by omega : ¬ n < 1), h2]
    refine ⟨_, rfl, ?_⟩
    rw [genLoop_length]
    omega
  · intro σ φ R F n seed fmt st fst h2
    unfold generate_regions
    rw [h2]
    refine ⟨_, rfl, ?_⟩
    rw [nameLoop_length]
    rfl
  · intro σ φ R F n seed fmt st fst hS h2 hn
    unfold generate_regions
    rw [h2]
    simp only [Option.getD_some]
    rw [if_neg (not_lt.mpr (le_min hn (Int.natCast_nonneg _)))]
    refine ⟨_, rfl, ?_⟩
    rw [nameLoop_length, List.length_map, hS]
    have hlen : REGIONS.length = 6 := rfl
    rw [hlen]
    omega

/-- Witness for C4 at concrete calls of all five conjuncts. -/
theorem claim_C4_witness :
    ((1 : Int) ≤ 2 ∧ valid_formats.contains "dict" = true) ∧
    (∃ l, generate_cars natRandom natFaker 2 (some 11) "USD" "dict" 0 0 = .ok l ∧
      (l.length : Int) = 2) ∧
    (∃ l, generate_profiles natRandom natFaker 2 (some 11) "en_KE" "dict" (2026, 10, 12) 0 0 = .ok l ∧
      (l.length : Int) = 2) ∧
    (∃ l, generate_salaries natRandom natFaker 2 (some 11) "en_KE" "KES" "dict" 0 0 = .ok l ∧
      (l.length : Int) = 2) ∧
    (∃ l, generate_regions natRandom natFaker (some 2) (some 11) true "dict" 0 0 = .ok l ∧
      l.length = 6) ∧
    (∃ l, generate_regions natRandom natFaker (some 2) (some 11) false "dict" 0 0 = .ok l ∧
      (l.length : Int) = min 2 6) :=
  ⟨⟨by decide, by decide⟩,
   claim_C4.1 Nat Nat natRandom natFaker 2 (some 11) "USD" "dict" 0 0 (by decide) (by decide),
   claim_C4.2.1 Nat Nat natRandom natFaker 2 (some 11) "en_KE" "dict" (2026, 10, 12) 0 0
     (by decide) (by decide),
   claim_C4.2.2.1 Nat Nat natRandom natFaker 2 (some 11) "en_KE" "KES" "dict" 0 0
     (by decide) (by decide),
   claim_C4.2.2.2.1 Nat Nat natRandom natFaker (some 2) (some 11) "dict" 0 0 (by decide),
   claim_C4.2.2.2.2 Nat Nat natRandom natFaker 2 (some 11) "dict" 0 0
     natRandom_SampleLenWF (by decide) (by decide)⟩

/-- C3 (counterexample to the claim as stated): the region generator in
sample mode (`include_all = false`, not generate-all mode) called with
`n = 0` does not raise a validation error — it returns an empty record
sequence. -/
theorem claim_C3_counterexample :
    generate_regions natRandom natFaker (some 0) (some 42) false "dict" 0 0 = .ok [] := rfl

/-- C3 (amended): the car, profile and salary generators raise a
validation error for `n = 0` or negative `n` before any record is
produced; the region generator in sample mode raises an error (the
stdlib sampling error) only for negative `n`, returning an empty
sequence for `n = 0`; and an `output_format` outside
{dataframe, dict, csv, json} raises a validation error for every
generator. -/
theorem claim_C3_amended :
    (∀ (σ φ : Type) (R : RandomImpl σ) (F : FakerImpl φ) (n : Int)
       (seed : Option Int) (cur fmt : String) (st : σ) (fst : φ), n < 1 →
       generate_cars R F n seed cur fmt st fst =
         .error "Number of cars (n) must be at least 1") ∧
    (∀ (σ φ : Type) (R : RandomImpl σ) (F : FakerImpl φ) (n : Int)
       (seed : Option Int) (loc fmt : String) (today : Int × Nat × Nat)
       (st : σ) (fst : φ), n < 1 →
       generate_profiles R F n seed loc fmt today st fst =
         .error "Number of profiles (n) must be at least 1.") ∧
    (∀ (σ φ : Type) (R : RandomImpl σ) (F : FakerImpl φ) (n : Int)
       (seed : Option Int) (loc cur fmt : String) (st : σ) (fst : φ), n < 1 →
       generate_salaries R F n seed loc cur fmt st fst =
         .error "Number of salary records (n) must be atleast 1") ∧
    (∀ (σ φ : Type) (R : RandomImpl σ) (F : FakerImpl φ) (n : Int)
       (seed : Option Int) (fmt : String) (st : σ) (fst : φ),
       valid_formats.contains fmt = true → n < 0 →
       generate_regions R F (some n) seed false fmt st fst =
         .error "Sample larger than population or is negative") ∧
    (∀ (σ φ : Type) (R : RandomImpl σ) (F : FakerImpl φ) (n : Int)
       (nr : Option Int) (seed : Option Int) (ia : Bool)
       (loc cur fmt : String) (today : Int × Nat × Nat) (st : σ) (fst : φ),
       valid_formats.contains fmt = false →
       (∃ e, generate_cars R F n seed cur fmt st fst = .error e) ∧
       (∃ e, generate_profiles R F n seed loc fmt today st fst = .error e) ∧
       (∃ e, generate_salaries R F n seed loc cur fmt st fst = .error e) ∧
       generate_regions R F nr seed ia fmt st fst =
         .error "output_format must be one of [dataframe, dict, csv, json]") := by
  refine ⟨?_, ?_, ?_, ?_, ?_⟩
  · intro σ φ R F n seed cur fmt st fst h
    unfold generate_cars
    rw [if_pos h]
  · intro σ φ R F n seed loc fmt today st fst h
    unfold generate_profiles
    rw [if_pos h]
  · intro σ φ R F n seed loc cur fmt st fst h
    unfold generate_salaries
    rw [if_pos h]
  · intro σ φ R F n seed fmt st fst h2 hneg
    unfold generate_regions
    rw [h2]
    simp only [Option.getD_some]
    rw [if_pos (lt_of_le_of_lt (min_le_left _ _) hneg)]
    rfl
  · intro σ φ R F n nr seed ia loc cur fmt today st fst hf
    refine ⟨?_, ?_, ?_, ?_⟩
    · unfold generate_cars
      split
      · exact ⟨_, rfl⟩
      · rw [hf]
        exact ⟨_, rfl⟩
    · unfold generate_profiles
      split
      · exact ⟨_, rfl⟩
      · rw [hf]
        exact ⟨_, rfl⟩
    · unfold generate_salaries
      split
      · exact ⟨_, rfl⟩
      · rw [hf]
        exact ⟨_, rfl⟩
    · unfold generate_regions
      rw [hf]
      rfl

/-- Witness for the amended C3 at concrete calls of all five conjuncts. -/
theorem claim_C3_witness :
    generate_cars natRandom natFaker 0 (some 1) "USD" "dataframe" 0 0 =
      .error "Number of cars (n) must be at least 1" ∧
    generate_profiles natRandom natFaker 0 (some 1) "en_KE" "dataframe" (2026, 10, 12) 0 0 =
      .error "Number of profiles (n) must be at least 1." ∧
    generate_salaries natRandom natFaker 0 (some 1) "en_KE" "KES" "dataframe" 0 0 =
      .error "Number of salary records (n) must be atleast 1" ∧
    generate_regions natRandom natFaker (some (-1)) (some 1) false "dict" 0 0 =
      .error "Sample larger than population or is negative" ∧
    generate_regions natRandom natFaker (some 2) (some 1) true "xml" 0 0 =
      .error "output_format must be one of [dataframe, dict, csv, json]" :=
  ⟨claim_C3_amended.1 Nat Nat natRandom natFaker 0 (some 1) "USD" "dataframe" 0 0 (by decide),
   claim_C3_amended.2.1 Nat Nat natRandom natFaker 0 (some 1) "en_KE" "dataframe"
     (2026, 10, 12) 0 0 (by decide),
   claim_C3_amended.2.2.1 Nat Nat natRandom natFaker 0 (some 1) "en_KE" "KES" "dataframe"
     0 0 (by decide),
   claim_C3_amended.2.2.2.1 Nat Nat natRandom natFaker (-1) (some 1) "dict" 0 0
     (by decide) (by decide),
   (claim_C3_amended.2.2.2.2 Nat Nat natRandom natFaker 0 (some 2) (some 1) true
     "en_KE" "KES" "xml" (2026, 10, 12) 0 0 (by decide)).2.2.2⟩

/-- C5: every generated car record's price equals the base price drawn
from the make's tier range with the year multiplier (×1.1 when the year
is after 2020) and the manual-transmission multiplier (×0.9) applied, in
that order, and the result rounded to the nearest hundred (`carPrice`);
in this source the rounding granularity is the nearest hundred for every
currency. -/
theorem claim_C5 (σ φ : Type) (R : RandomImpl σ) (F : FakerImpl φ) (n : Int)
    (seed : Option Int) (cur fmt : String) (st : σ) (fst : φ) (l : List CarRecord)
    (hR : R.RandintWF)
    (hok : generate_cars R F n seed cur fmt st fst = .ok l) :
    ∀ r ∈ l, ∃ base, (tierRange r.make).1 ≤ base ∧ base ≤ (tierRange r.make).2 ∧
      r.price = carPrice base r.year r.transmission := by
  intro r hr
  unfold generate_cars at hok
  split at hok
  · exact Except.noConfusion hok
  · split at hok
    · exact Except.noConfusion hok
    · injection hok with h
      subst h
      exact genLoop_mem _
        (fun rec => ∃ base, (tierRange rec.make).1 ≤ base ∧
          base ≤ (tierRange rec.make).2 ∧
          rec.price = carPrice base rec.year rec.transmission)
        (fun st' fst' => mkCar_price R F cur hR st' fst') _ _ _ r hr

set_option maxHeartbeats 2000000 in
/-- C8: for every generated salary record, the base salary is a draw
from the record's level's fixed range rounded to the nearest 1,000, the
bonus is the drawn bonus percentage of that base salary (truncated to an
integer, then rounded to the nearest 100), and `total_compensation`
equals `base_salary + bonus` exactly. -/
theorem claim_C8 (σ φ : Type) (R : RandomImpl σ) (F : FakerImpl φ) (n : Int)
    (seed : Option Int) (loc cur fmt : String) (st : σ) (fst : φ)
    (l : List SalaryRecord) (hR : R.RandintWF) (hU : R.UniformWF)
    (hok : generate_salaries R F n seed loc cur fmt st fst = .ok l) :
    ∀ r ∈ l, ∃ draw pct,
      ((LEVEL_RANGES.lookup r.level).getD ((0, 0), (0, 0))).1.1 ≤ draw ∧
      draw ≤ ((LEVEL_RANGES.lookup r.level).getD ((0, 0), (0, 0))).1.2 ∧
      r.base_salary = pyRoundTo 1000 (draw : ℚ) ∧
      (((LEVEL_RANGES.lookup r.level).getD ((0, 0), (0, 0))).2.1 : ℚ) ≤ pct ∧
      pct ≤ (((LEVEL_RANGES.lookup r.level).getD ((0, 0), (0, 0))).2.2 : ℚ) ∧
      r.bonus = pyRoundTo 100 ((pyInt ((r.base_salary : ℚ) * (pct / 100))) : ℚ) ∧
      r.total_compensation = r.base_salary + r.bonus := by
  intro r hr
  unfold generate_salaries at hok
  split at hok
  · exact Except.noConfusion hok
  · split at hok
    · exact Except.noConfusion hok
    · injection hok with h
      subst h
      exact genLoop_mem _
        (fun rec => ∃ draw pct,
          ((LEVEL_RANGES.lookup rec.level).getD ((0, 0), (0, 0))).1.1 ≤ draw ∧
          draw ≤ ((LEVEL_RANGES.lookup rec.level).getD ((0, 0), (0, 0))).1.2 ∧
          rec.base_salary = pyRoundTo 1000 (draw : ℚ) ∧
          (((LEVEL_RANGES.lookup rec.level).getD ((0, 0), (0, 0))).2.1 : ℚ) ≤ pct ∧
          pct ≤ (((LEVEL_RANGES.lookup rec.level).getD ((0, 0), (0, 0))).2.2 : ℚ) ∧
          rec.bonus = pyRoundTo 100 ((pyInt ((rec.base_salary : ℚ) * (pct / 100))) : ℚ) ∧
          rec.total_compensation = rec.base_salary + rec.bonus)
        (fun st' fst' => mkSalary_spec R F cur hR hU st' fst') _ _ _ r hr

/-- The car record list produced by a fixed concrete call. -/
def carListW : List CarRecord :=
  match generate_cars natRandom natFaker 1 (some 42) "USD" "dict" 0 0 with
  | .ok l => l
  | .error _ => []

/-- The single record of `carListW`. -/
def carW : CarRecord := carListW.headD default

set_option maxHeartbeats 2000000 in
/-- Witness for C5 at the record of a fixed concrete call. -/
theorem claim_C5_witness :
    ∃ base, (tierRange carW.make).1 ≤ base ∧ base ≤ (tierRange carW.make).2 ∧
      carW.price = carPrice base carW.year carW.transmission :=
  claim_C5 Nat Nat natRandom natFaker 1 (some 42) "USD" "dict" 0 0 carListW
    natRandom_RandintWF rfl carW
    (by rw [show carListW = [carW] from rfl]; exact List.mem_singleton_self _)

/-- The salary record list produced by a fixed concrete call. -/
def salListW : List SalaryRecord :=
  match generate_salaries natRandom natFaker 1 (some 7) "en_KE" "KES" "dict" 0 0 with
  | .ok l => l
  | .error _ => []

/-- The single record of `salListW`. -/
def salW : SalaryRecord := salListW.headD default

set_option maxHeartbeats 2000000 in
/-- Witness for C8 at the record of a fixed concrete call. -/
theorem claim_C8_witness :
    ∃ draw pct,
      ((LEVEL_RANGES.lookup salW.level).getD ((0, 0), (0, 0))).1.1 ≤ draw ∧
      draw ≤ ((LEVEL_RANGES.lookup salW.level).getD ((0, 0), (0, 0))).1.2 ∧
      salW.base_salary = pyRoundTo 1000 (draw : ℚ) ∧
      (((LEVEL_RANGES.lookup salW.level).getD ((0, 0), (0, 0))).2.1 : ℚ) ≤ pct ∧
      pct ≤ (((LEVEL_RANGES.lookup salW.level).getD ((0, 0), (0, 0))).2.2 : ℚ) ∧
      salW.bonus = pyRoundTo 100 ((pyInt ((salW.base_salary : ℚ) * (pct / 100))) : ℚ) ∧
      salW.total_compensation = salW.base_salary + salW.bonus :=
  claim_C8 Nat Nat natRandom natFaker 1 (some 7) "en_KE" "KES" "dict" 0 0 salListW
    natRandom_RandintWF natRandom_UniformWF rfl salW
    (by rw [show salListW = [salW] from rfl]; exact List.mem_singleton_self _)

theorem endsWith_excl2 (fn e1 e2 : String) (h2 : endsWithS fn e2 = true)
    (hlen : e2.data.length ≤ e1.data.length)
    (hne : isSuffOf e2.data e1.data = false) : endsWithS fn e1 = false := by
  cases hc : endsWithS fn e1
  · rfl
  · have := isSuffOf_of_le e2.data e1.data fn.data h2 hc hlen
    rw [hne] at this
    cases this

theorem resolve_csv_of (fn : String) (h : endsWithS fn ".csv" = true) :
    resolve_format fn none = "csv" := by
  unfold resolve_format
  rw [h]
  rfl

theorem resolve_json_of (fn : String) (h : endsWithS fn ".json" = true) :
    resolve_format fn none = "json" := by
  have hcsv := endsWith_excl fn ".csv" ".json" h (by decide) (by decide)
  unfold resolve_format
  rw [hcsv, h]
  rfl

theorem resolve_excel_of (fn : String)
    (h : endsWithS fn ".xlsx" = true ∨ endsWithS fn ".xls" = true) :
    resolve_format fn none = "excel" := by
  rcases h with h | h
  · have hcsv := endsWith_excl fn ".csv" ".xlsx" h (by decide) (by decide)
    have hjson := endsWith_excl fn ".json" ".xlsx" h (by decide) (by decide)
    unfold resolve_format
    rw [hcsv, hjson, h]
    rfl
  · have hcsv := endsWith_excl fn ".csv" ".xls" h (by decide) (by decide)
    have hjson := endsWith_excl2 fn ".json" ".xls" h (by decide) (by decide)
    unfold resolve_format
    rw [hcsv, hjson, h]
    simp

theorem resolve_parquet_of (fn : String) (h : endsWithS fn ".parquet" = true) :
    resolve_format fn none = "parquet" := by
  have hcsv := endsWith_excl fn ".csv" ".parquet" h (by decide) (by decide)
  have hjson := endsWith_excl fn ".json" ".parquet" h (by decide) (by decide)
  have hxlsx := endsWith_excl fn ".xlsx" ".parquet" h (by decide) (by decide)
  have hxls := endsWith_excl fn ".xls" ".parquet" h (by decide) (by decide)
  unfold resolve_format
  rw [hcsv, hjson, hxlsx, hxls, h]
  rfl

theorem resolve_default_of (fn : String) (h1 : endsWithS fn ".csv" = false)
    (h2 : endsWithS fn ".json" = false) (h3 : endsWithS fn ".xlsx" = false)
    (h4 : endsWithS fn ".xls" = false) (h5 : endsWithS fn ".parquet" = false) :
    resolve_format fn none = "csv" := by
  unfold resolve_format
  rw [h1, h2, h3, h4, h5]
  rfl

/-- C6: in the save helpers, an explicit format argument always wins;
with no explicit format the format is inferred from the filename
extension (.csv → csv, .json → json, .xlsx/.xls → excel,
.parquet → parquet), and any other filename defaults to csv; a
`.json` filename with no explicit format makes the save helpers write
JSON. -/
theorem claim_C6 :
    (∀ fn f, resolve_format fn (some f) = f) ∧
    (∀ fn, endsWithS fn ".csv" = true → resolve_format fn none = "csv") ∧
    (∀ fn, endsWithS fn ".json" = true → resolve_format fn none = "json") ∧
    (∀ fn, endsWithS fn ".xlsx" = true ∨ endsWithS fn ".xls" = true →
      resolve_format fn none = "excel") ∧
    (∀ fn, endsWithS fn ".parquet" = true → resolve_format fn none = "parquet") ∧
    (∀ fn, endsWithS fn ".csv" = false → endsWithS fn ".json" = false →
      endsWithS fn ".xlsx" = false → endsWithS fn ".xls" = false →
      endsWithS fn ".parquet" = false → resolve_format fn none = "csv") ∧
    (∀ cars fn, endsWithS fn ".json" = true →
      save_cars cars fn none = .ok ⟨fn, "json", cars.length⟩) ∧
    (∀ regs fn, endsWithS fn ".json" = true →
      save_regions regs fn none = .ok ⟨fn, "json", regs.length⟩) := by
  refine ⟨fun fn f => rfl, resolve_csv_of, resolve_json_of, resolve_excel_of,
    resolve_parquet_of, resolve_default_of, ?_, ?_⟩
  · intro cars fn h
    unfold save_cars
    rw [resolve_json_of fn h]
    rfl
  · intro regs fn h
    unfold save_regions
    rw [resolve_json_of fn h]
    rfl

/-- Witness for C6 at concrete filenames. -/
theorem claim_C6_witness :
    resolve_format "out.json" (some "csv") = "csv" ∧
    resolve_format "a.csv" none = "csv" ∧
    resolve_format "out.json" none = "json" ∧
    resolve_format "b.xlsx" none = "excel" ∧
    resolve_format "c.parquet" none = "parquet" ∧
    resolve_format "data.bin" none = "csv" ∧
    save_cars [] "out.json" none = .ok ⟨"out.json", "json", 0⟩ ∧
    save_regions [] "out.json" none = .ok ⟨"out.json", "json", 0⟩ :=
  ⟨claim_C6.1 "out.json" "csv",
   claim_C6.2.1 "a.csv" (by decide),
   claim_C6.2.2.1 "out.json" (by decide),
   claim_C6.2.2.2.1 "b.xlsx" (Or.inl (by decide)),
   claim_C6.2.2.2.2.1 "c.parquet" (by decide),
   claim_C6.2.2.2.2.2.1 "data.bin" (by decide) (by decide) (by decide)
     (by decide) (by decide),
   claim_C6.2.2.2.2.2.2.1 [] "out.json" (by decide),
   claim_C6.2.2.2.2.2.2.2 [] "out.json" (by decide)⟩

/-- C7: calling a save helper with an explicit format outside
{csv, json, excel, parquet} raises a validation error, and no file — not
even a partial one — is written: the error result of the embedding
carries no `FileWrite`, matching the source, which raises before any
`to_*` write call. -/
theorem claim_C7 (f : String) (h1 : f ≠ "csv") (h2 : f ≠ "json")
    (h3 : f ≠ "excel") (h4 : f ≠ "parquet") :
    (∀ cars fn, save_cars cars fn (some f) =
      .error ("Unsupported file format: " ++ f)) ∧
    (∀ regs fn, save_regions regs fn (some f) =
      .error ("Unsupported file format: " ++ f)) := by
  constructor
  · intro cars fn
    simp only [save_cars, resolve_format]
    rw [if_neg h1, if_neg h2, if_neg h3, if_neg h4]
  · intro regs fn
    simp only [save_regions, resolve_format]
    rw [if_neg h1, if_neg h2, if_neg h3, if_neg h4]

/-- Witness for C7 at a concrete unsupported format. -/
theorem claim_C7_witness :
    save_cars [] "cars.xml" (some "xml") = .error "Unsupported file format: xml" ∧
    save_regions [] "regions.xml" (some "xml") = .error "Unsupported file format: xml" :=
  ⟨(claim_C7 "xml" (by decide) (by decide) (by decide) (by decide)).1 [] "cars.xml",
   (claim_C7 "xml" (by decide) (by decide) (by decide) (by decide)).2 [] "regions.xml"⟩
